import Mathlib

/-!
Shallow embedding of the pyHYDRA nested cross-validation engine
(`pyHYDRA/classification.py`) and proofs about its selection, aggregation,
validation-driver and variance-estimation logic.

Modelling conventions:
* Python floats are modelled as exact rationals (`ℚ`) everywhere except the
  regularization strength C, which is modelled as a real number (`ℝ`) because
  the code aggregates C in log space (`np.power(10, np.mean(np.log10(...)))`).
* Binary labels are integers (`ℤ`).
* Kernel and feature matrices are row lists (`List (List ℚ)`); numpy fancy
  indexing `M[rows, :][:, cols]` becomes an explicit slice function.
* A Python exception is an `Except.error`; numpy scalar operations do not
  raise on division by zero but produce a non-finite value (nan or inf),
  modelled by `Option ℚ` with `none` standing for the non-finite result.
  Python scalar division (`/` on int or float) does raise `ZeroDivisionError`
  on a zero divisor, modelled by `pyDiv`.
* The external collaborators (sklearn `SVC`, `roc_auc_score`,
  `evaluate_prediction` from `pyHYDRA.utils`) are out of scope per the
  design: they enter as function parameters; a fitted `SVC` is modelled as
  the record of the exact inputs passed to `SVC(...).fit`, which is what the
  claims about refitting constrain.
* Thread pools (`ThreadPool.apply_async` immediately followed by
  `results.get()`) execute their work sequentially in program order, so the
  loops are modelled as ordinary list traversals.
-/

namespace PyHydra

/-- Output record of the external scoring collaborator `evaluate_prediction`
(mapping of named metrics). -/
structure Metrics where
  balanced_accuracy : ℚ
  accuracy : ℚ
  sensitivity : ℚ
  specificity : ℚ
  ppv : ℚ
  npv : ℚ
deriving DecidableEq, Repr

/-- The record of selected C and balanced accuracy returned by
`_select_best_parameter` and stored in each outer-fold result. -/
structure BestParam where
  c : ℝ
  balanced_accuracy : ℚ

/-- The result dict built at the end of `evaluate` (one per outer fold). -/
structure EvalResult where
  best_parameter : BestParam
  evaluation : Metrics
  evaluation_train : Metrics
  y_hat : List ℤ
  y_hat_train : List ℤ
  y : List ℤ
  y_train : List ℤ
  y_index : List ℕ
  x_index : List ℕ
  auc : ℚ

/-- A fitted sklearn `SVC` is external; the model records the constructor
flag and the exact arguments of the `fit` call. -/
structure FittedSVC where
  balanced : Bool
  C : ℝ
  fit_data : List (List ℚ)
  fit_labels : List ℤ

/-- Entry `M[i][j]` of a matrix stored as a row list (numpy indexing; out of
range reads never occur on the inputs the claims quantify over). -/
def kentry (M : List (List ℚ)) (i j : ℕ) : ℚ :=
  (M.getD i []).getD j 0

/-- Numpy fancy indexing `M[rows, :][:, cols]`. -/
def sliceRC (M : List (List ℚ)) (rows cols : List ℕ) : List (List ℚ) :=
  rows.map (fun r => cols.map (fun c => kentry M r c))

/-- Numpy row indexing `M[rows, :]`. -/
def sliceRows (M : List (List ℚ)) (rows : List ℕ) : List (List ℚ) :=
  rows.map (fun r => M.getD r [])

/-- Numpy vector indexing `y[idx]`. -/
def sliceList (y : List ℤ) (idx : List ℕ) : List ℤ :=
  idx.map (fun i => y.getD i 0)

/-- Python indexing `l[i]`, raising `IndexError` when out of range. -/
def pyIndex {α : Type} (l : List α) (i : ℕ) : Except String α :=
  if h : i < l.length then .ok (l.get ⟨i, h⟩) else .error "IndexError"

/-- Python scalar division: raises `ZeroDivisionError` on a zero divisor. -/
def pyDiv (a b : ℚ) : Except String ℚ :=
  if b = 0 then .error "ZeroDivisionError" else .ok (a / b)

/-- Numpy scalar division: never raises; a zero divisor yields a non-finite
value (nan, here always 0/0 on the inputs of interest), modelled as `none`. -/
def npScalarDiv (a b : ℚ) : Option ℚ :=
  if b = 0 then none else some (a / b)

/-- The arithmetic mean `np.mean`; every use in the claims is on a nonempty
list (numpy would return nan on an empty one). -/
def npMeanQ (l : List ℚ) : ℚ :=
  l.sum / l.length

/-- The arithmetic mean `np.mean` on real-valued data. -/
noncomputable def npMeanR (l : List ℝ) : ℝ :=
  l.sum / l.length

/-- The inner loop of `_select_best_parameter` over one inner fold: running
pair `(best_c, best_acc)` starting at `(-1, -1)`; a candidate replaces the
running best exactly when its accuracy strictly exceeds it
(`if acc > best_acc`). The fold is the insertion-ordered list of
`(c, accuracy)` items of `async_result[fold]`. -/
def foldBest (fold : List (ℝ × ℚ)) : ℝ × ℚ :=
  fold.foldl (fun best p => if best.2 < p.2 then p else best) (-1, -1)

/-- `_select_best_parameter` (identical in both algorithm classes): per-fold
winners via `foldBest`, then the cross-fold reduction
`best_c = np.power(10, np.mean(np.log10(c_values)))` and
`best_acc = np.mean(accuracies)`. -/
noncomputable def selectBestParameter (table : List (List (ℝ × ℚ))) : BestParam :=
  let c_values := table.map (fun fold => (foldBest fold).1)
  let accuracies := table.map (fun fold => (foldBest fold).2)
  { c := (10 : ℝ) ^ npMeanR (c_values.map (fun c => Real.logb 10 c))
    balanced_accuracy := npMeanQ accuracies }

/-- State of `LinearSVMAlgorithmWithPrecomputedKernel` (`n_threads` only
sizes the pool and is dropped). -/
structure KernelSVMAlg where
  kernel : List (List ℚ)
  y : List ℤ
  balanced : Bool
  grid_search_folds : ℕ
  c_range : List ℝ

/-- State of `LinearSVMAlgorithmWithoutPrecomputedKernel`. -/
structure FeatureSVMAlg where
  x : List (List ℚ)
  y : List ℤ
  balanced : Bool
  grid_search_folds : ℕ
  c_range : List ℝ

/-- `LinearSVMAlgorithmWithPrecomputedKernel.evaluate`. The external pieces
are parameters: `gs` is `_grid_search` (an SVC fit plus balanced-accuracy
scoring on the inner slices), `launch` is `_launch_svc` returning
`(y_hat, auc, y_hat_train)`, and `ep` is `evaluate_prediction`. The inner
`StratifiedKFold(shuffle=True)` split is random, so the produced assignment
`inner_cv` is passed explicitly; it has exactly `grid_search_folds` entries,
so it coincides with the dict keys pre-created for `async_result`. The inner
grid evaluations run through a thread pool whose results are collected
immediately, preserving fold order and `c_range` order. -/
noncomputable def KernelSVMAlg.evaluate (alg : KernelSVMAlg)
    (gs : List (List ℚ) → List (List ℚ) → List ℤ → List ℤ → ℝ → ℚ)
    (launch : List (List ℚ) → List (List ℚ) → List ℤ → List ℤ → ℝ →
      List ℤ × ℚ × List ℤ)
    (ep : List ℤ → List ℤ → Metrics)
    (inner_cv : List (List ℕ × List ℕ))
    (train_index test_index : List ℕ) : EvalResult :=
  let outer_kernel := sliceRC alg.kernel train_index train_index
  let y_train := sliceList alg.y train_index
  let table := inner_cv.map (fun p =>
    let inner_kernel := sliceRC outer_kernel p.1 p.1
    let x_test_inner := sliceRC outer_kernel p.2 p.1
    let y_train_inner := sliceList y_train p.1
    let y_test_inner := sliceList y_train p.2
    alg.c_range.map (fun c =>
      (c, gs inner_kernel x_test_inner y_train_inner y_test_inner c)))
  let best_parameter := selectBestParameter table
  let x_test := sliceRC alg.kernel test_index train_index
  let y_test := sliceList alg.y test_index
  let r := launch outer_kernel x_test y_train y_test best_parameter.c
  { best_parameter := best_parameter
    evaluation := ep y_test r.1
    evaluation_train := ep y_train r.2.2
    y_hat := r.1
    y_hat_train := r.2.2
    y := y_test
    y_train := y_train
    y_index := test_index
    x_index := train_index
    auc := r.2.1 }

/-- `LinearSVMAlgorithmWithoutPrecomputedKernel.evaluate`: identical control
flow, but the feature matrix is sliced by rows only. -/
noncomputable def FeatureSVMAlg.evaluate (alg : FeatureSVMAlg)
    (gs : List (List ℚ) → List (List ℚ) → List ℤ → List ℤ → ℝ → ℚ)
    (launch : List (List ℚ) → List (List ℚ) → List ℤ → List ℤ → ℝ →
      List ℤ × ℚ × List ℤ)
    (ep : List ℤ → List ℤ → Metrics)
    (inner_cv : List (List ℕ × List ℕ))
    (train_index test_index : List ℕ) : EvalResult :=
  let outer_x := sliceRows alg.x train_index
  let y_train := sliceList alg.y train_index
  let table := inner_cv.map (fun p =>
    let inner_x := sliceRows outer_x p.1
    let x_test_inner := sliceRows outer_x p.2
    let y_train_inner := sliceList y_train p.1
    let y_test_inner := sliceList y_train p.2
    alg.c_range.map (fun c =>
      (c, gs inner_x x_test_inner y_train_inner y_test_inner c)))
  let best_parameter := selectBestParameter table
  let x_test := sliceRows alg.x test_index
  let y_test := sliceList alg.y test_index
  let r := launch outer_x x_test y_train y_test best_parameter.c
  { best_parameter := best_parameter
    evaluation := ep y_test r.1
    evaluation_train := ep y_train r.2.2
    y_hat := r.1
    y_hat_train := r.2.2
    y := y_test
    y_train := y_train
    y_index := test_index
    x_index := train_index
    auc := r.2.1 }

/-- `LinearSVMAlgorithmWithPrecomputedKernel.apply_best_parameters`: collects
the selected C and balanced accuracy of every outer-fold result, aggregates
(`np.power(10, np.mean(np.log10(best_c_list)))` and `np.mean(bal_acc_list)`)
and refits an SVC on the full stored kernel and label vector. -/
noncomputable def KernelSVMAlg.apply_best_parameters (alg : KernelSVMAlg)
    (results_list : List EvalResult) : FittedSVC × BestParam :=
  let best_c_list := results_list.map (fun r => r.best_parameter.c)
  let bal_acc_list := results_list.map (fun r => r.best_parameter.balanced_accuracy)
  let best_c := (10 : ℝ) ^ npMeanR (best_c_list.map (fun c => Real.logb 10 c))
  let mean_bal_acc := npMeanQ bal_acc_list
  ({ balanced := alg.balanced, C := best_c, fit_data := alg.kernel,
     fit_labels := alg.y },
   { c := best_c, balanced_accuracy := mean_bal_acc })

/-- `LinearSVMAlgorithmWithoutPrecomputedKernel.apply_best_parameters`: same
aggregation; the final SVC is fit on the full stored feature matrix. -/
noncomputable def FeatureSVMAlg.apply_best_parameters (alg : FeatureSVMAlg)
    (results_list : List EvalResult) : FittedSVC × BestParam :=
  let best_c_list := results_list.map (fun r => r.best_parameter.c)
  let bal_acc_list := results_list.map (fun r => r.best_parameter.balanced_accuracy)
  let best_c := (10 : ℝ) ^ npMeanR (best_c_list.map (fun c => Real.logb 10 c))
  let mean_bal_acc := npMeanQ bal_acc_list
  ({ balanced := alg.balanced, C := best_c, fit_data := alg.x,
     fit_labels := alg.y },
   { c := best_c, balanced_accuracy := mean_bal_acc })

/-- Mutable state of a `KFoldCV` instance. In `__init__` the field
`_fold_results` is set to the empty list (never to `None`), so the
`is None` guard in `save_results` can never fire; the `Option` records the
guard faithfully. -/
structure KFoldCVState where
  fold_results : Option (List EvalResult)
  classifier : Option FittedSVC
  best_params : Option BestParam
  cv : Option (List (List ℕ × List ℕ))

/-- `KFoldCV.__init__`. -/
def KFoldCV.init : KFoldCVState :=
  { fold_results := some [], classifier := none, best_params := none,
    cv := none }

/-- Mutable state of a `RepeatedHoldOut` instance (`__init__` with
parameters `n_iterations` and `test_size`; `_split_results` starts as the
empty list). The four cached variance fields are not carried: the claims
concern the values the variance methods return. -/
structure RepeatedHoldOutState where
  split_results : Option (List EvalResult)
  cv : Option (List (List ℕ × List ℕ))
  n_iterations : ℕ
  test_size : ℚ

/-- `RepeatedHoldOut.__init__`. -/
def RepeatedHoldOut.init (n_iterations : ℕ) (test_size : ℚ) :
    RepeatedHoldOutState :=
  { split_results := some [], cv := none, n_iterations := n_iterations,
    test_size := test_size }

/-- `KFoldCV.validate`. The injected algorithm is duck-typed in the source
(`self._ml_algorithm.evaluate` / `.apply_best_parameters`), so its two bound
methods enter as the parameters `eval` and `abp`; the random
`StratifiedKFold` generator output is `gen`, used only when no splits are
supplied. Each fold result is appended to the stored list (never reset), the
aggregation runs on the accumulated list, and the triple
`(classifier, best_params, fold_results)` is returned together with the new
instance state. -/
def KFoldCV.validate (eval : List ℕ × List ℕ → EvalResult)
    (abp : List EvalResult → FittedSVC × BestParam)
    (st : KFoldCVState) (y : List ℤ) (n_folds : ℕ)
    (splits_indices : Option (List (List ℕ × List ℕ)))
    (gen : List ℤ → List (List ℕ × List ℕ)) :
    Except String (FittedSVC × BestParam × List EvalResult × KFoldCVState) := do
  let cv := splits_indices.getD (gen y)
  let results ← (List.range n_folds).mapM (fun i => do
    let s ← pyIndex cv i
    pure (eval s))
  let fold_results := st.fold_results.getD [] ++ results
  let (classifier, best_params) := abp fold_results
  pure (classifier, best_params, fold_results,
    { st with fold_results := some fold_results, cv := some cv,
              classifier := some classifier, best_params := some best_params })

/-- `RepeatedHoldOut.validate`: same driver shape over
`self._n_iterations` splits, except that each iteration first indexes the
split list and then refuses to run without the inner nested search
(`raise Exception("We always do nested CV")` when `inner_cv` is false). -/
def RepeatedHoldOut.validate (eval : List ℕ × List ℕ → EvalResult)
    (abp : List EvalResult → FittedSVC × BestParam)
    (st : RepeatedHoldOutState) (y : List ℤ)
    (splits_indices : Option (List (List ℕ × List ℕ)))
    (gen : List ℤ → List (List ℕ × List ℕ)) (inner_cv : Bool) :
    Except String
      (FittedSVC × BestParam × List EvalResult × RepeatedHoldOutState) := do
  let cv := splits_indices.getD (gen y)
  let results ← (List.range st.n_iterations).mapM (fun i => do
    let s ← pyIndex cv i
    if inner_cv then pure (eval s)
    else Except.error "We always do nested CV")
  let split_results := st.split_results.getD [] ++ results
  let (classifier, best_params) := abp split_results
  pure (classifier, best_params, split_results,
    { st with split_results := some split_results, cv := some cv })

/-- `pd.concat`: raises `ValueError: No objects to concatenate` exactly when
the list of tables is empty, and otherwise stacks the rows. -/
def pdConcat {α : Type} (dfs : List (List α)) : Except String (List α) :=
  if dfs.isEmpty then .error "No objects to concatenate" else .ok dfs.flatten

/-- One row group of `subjects_fold-i.tsv`: columns y, y_hat, y_index. -/
def subjectsTable (r : EvalResult) : List (ℤ × ℤ × ℕ) :=
  r.y.zip (r.y_hat.zip r.y_index)

/-- One row of `results_fold-i.tsv` for `KFoldCV`. -/
structure KFoldResultsRow where
  balanced_accuracy : ℚ
  auc : ℚ
  accuracy : ℚ
  sensitivity : ℚ
  specificity : ℚ
  ppv : ℚ
  npv : ℚ
deriving DecidableEq, Repr

/-- Builds the single-row metrics table of one fold. -/
def kfoldResultsRow (r : EvalResult) : KFoldResultsRow :=
  { balanced_accuracy := r.evaluation.balanced_accuracy, auc := r.auc,
    accuracy := r.evaluation.accuracy, sensitivity := r.evaluation.sensitivity,
    specificity := r.evaluation.specificity, ppv := r.evaluation.ppv,
    npv := r.evaluation.npv }

/-- The `mean_results` row: `np.nanmean` of every numeric column (no value
is missing in this model, so it is the plain column mean). -/
def kfoldMeanRow (rows : List KFoldResultsRow) : KFoldResultsRow :=
  { balanced_accuracy := npMeanQ (rows.map (fun r => r.balanced_accuracy))
    auc := npMeanQ (rows.map (fun r => r.auc))
    accuracy := npMeanQ (rows.map (fun r => r.accuracy))
    sensitivity := npMeanQ (rows.map (fun r => r.sensitivity))
    specificity := npMeanQ (rows.map (fun r => r.specificity))
    ppv := npMeanQ (rows.map (fun r => r.ppv))
    npv := npMeanQ (rows.map (fun r => r.npv)) }

/-- `KFoldCV.save_results` with the file writes abstracted away: the value
returned is the data written (`subjects.tsv` rows, `results.tsv` rows and
the `mean_results.tsv` row). The source first checks
`if self._fold_results is None`, then builds one subjects table and one
single-row results table per fold, then concatenates each collection with
`pd.concat` and takes the column means. -/
def KFoldCV.save_results (st : KFoldCVState) :
    Except String (List (ℤ × ℤ × ℕ) × List KFoldResultsRow × KFoldResultsRow) :=
  match st.fold_results with
  | none => .error
      "No results to save. Method validate() must be run before save_results()."
  | some frs => do
    let subjects_folds := frs.map subjectsTable
    let results_folds := frs.map (fun r => [kfoldResultsRow r])
    let all_subjects ← pdConcat subjects_folds
    let all_results ← pdConcat results_folds
    pure (all_subjects, all_results, kfoldMeanRow all_results)

/-- `_compute_variance` of `RepeatedHoldOut`. `num_split` is
`len(self._split_results)` (the J of Nadeau-Bengio) and `test_size` is the
configured held-out fraction. The sample variance divides by `J - 1` with
numpy semantics (a zero divisor yields nan, not an exception); the line for
the corrected estimate contains the Python scalar divisions `1/num_split`
and `test_size/(1 - test_size)`, which do raise on a zero divisor. -/
def RepeatedHoldOut._compute_variance (num_split : ℕ) (test_size : ℚ)
    (test_error_split : List ℚ) : Except String (Option ℚ × Option ℚ) := do
  let average_test_error := npMeanQ test_error_split
  let approx_variance := npScalarDiv
    ((test_error_split.map (fun x => (x - average_test_error) ^ 2)).sum)
    ((num_split : ℚ) - 1)
  let resampled_t := approx_variance.bind (fun v => npScalarDiv v num_split)
  let c1 ← pyDiv 1 num_split
  let c2 ← pyDiv test_size (1 - test_size)
  let corrected_resampled_t := approx_variance.map (fun v => (c1 + c2) * v)
  pure (resampled_t, corrected_resampled_t)

/-- `_compute_average_test_error`: the fraction
`len(np.where(y != y_hat)[0]) / len(y)` of mismatched predictions, a Python
float division (raising on an empty label vector). -/
def RepeatedHoldOut._compute_average_test_error (y_list yhat_list : List ℤ) :
    Except String ℚ :=
  pyDiv ((y_list.zip yhat_list).countP (fun q => q.1 != q.2) : ℕ) y_list.length

/-- `compute_error_variance`: one mismatch-fraction statistic per stored
split result, reduced through `_compute_variance`. -/
def RepeatedHoldOut.compute_error_variance (st : RepeatedHoldOutState) :
    Except String (Option ℚ × Option ℚ) := do
  let srs := st.split_results.getD []
  let test_error_split ← srs.mapM (fun r =>
    RepeatedHoldOut._compute_average_test_error r.y r.y_hat)
  RepeatedHoldOut._compute_variance srs.length st.test_size test_error_split

/-- `_compute_average_test_accuracy`: the balanced accuracy of the scoring
collaborator `evaluate_prediction` (external, passed as `ep`). -/
def RepeatedHoldOut._compute_average_test_accuracy
    (ep : List ℤ → List ℤ → Metrics) (y_list yhat_list : List ℤ) : ℚ :=
  (ep y_list yhat_list).balanced_accuracy

/-- `compute_accuracy_variance`: one balanced-accuracy statistic per stored
split result, reduced through the same `_compute_variance`. -/
def RepeatedHoldOut.compute_accuracy_variance (ep : List ℤ → List ℤ → Metrics)
    (st : RepeatedHoldOutState) : Except String (Option ℚ × Option ℚ) :=
  let srs := st.split_results.getD []
  let test_accuracy_split := srs.map (fun r =>
    RepeatedHoldOut._compute_average_test_accuracy ep r.y r.y_hat)
  RepeatedHoldOut._compute_variance srs.length st.test_size test_accuracy_split

/-- One row group of `train_subjects.tsv` for an iteration. -/
def trainSubjectsTable (iteration : ℕ) (r : EvalResult) :
    List (ℕ × ℤ × ℤ × ℕ) :=
  r.y_train.map (fun _ => iteration) |>.zip (r.y_train.zip (r.y_hat_train.zip r.x_index))
    |>.map (fun q => (q.1, q.2))

/-- One row group of `test_subjects.tsv` for an iteration. -/
def testSubjectsTable (iteration : ℕ) (r : EvalResult) :
    List (ℕ × ℤ × ℤ × ℕ) :=
  r.y.map (fun _ => iteration) |>.zip (r.y.zip (r.y_hat.zip r.y_index))
    |>.map (fun q => (q.1, q.2))

/-- One row of `results.tsv` for an iteration of `RepeatedHoldOut` (test
metrics and auc plus the diagnostic train metrics). -/
structure RHOResultsRow where
  balanced_accuracy : ℚ
  auc : ℚ
  accuracy : ℚ
  sensitivity : ℚ
  specificity : ℚ
  ppv : ℚ
  npv : ℚ
  train_balanced_accuracy : ℚ
  train_accuracy : ℚ
  train_sensitivity : ℚ
  train_specificity : ℚ
  train_ppv : ℚ
  train_npv : ℚ
deriving DecidableEq, Repr

/-- Builds the single-row metrics table of one iteration. -/
def rhoResultsRow (r : EvalResult) : RHOResultsRow :=
  { balanced_accuracy := r.evaluation.balanced_accuracy, auc := r.auc,
    accuracy := r.evaluation.accuracy, sensitivity := r.evaluation.sensitivity,
    specificity := r.evaluation.specificity, ppv := r.evaluation.ppv,
    npv := r.evaluation.npv,
    train_balanced_accuracy := r.evaluation_train.balanced_accuracy,
    train_accuracy := r.evaluation_train.accuracy,
    train_sensitivity := r.evaluation_train.sensitivity,
    train_specificity := r.evaluation_train.specificity,
    train_ppv := r.evaluation_train.ppv, train_npv := r.evaluation_train.npv }

/-- Column means of the repeated-holdout results table (`np.nanmean`; no
value is missing in this model). -/
def rhoMeanRow (rows : List RHOResultsRow) : RHOResultsRow :=
  { balanced_accuracy := npMeanQ (rows.map (fun r => r.balanced_accuracy))
    auc := npMeanQ (rows.map (fun r => r.auc))
    accuracy := npMeanQ (rows.map (fun r => r.accuracy))
    sensitivity := npMeanQ (rows.map (fun r => r.sensitivity))
    specificity := npMeanQ (rows.map (fun r => r.specificity))
    ppv := npMeanQ (rows.map (fun r => r.ppv))
    npv := npMeanQ (rows.map (fun r => r.npv))
    train_balanced_accuracy := npMeanQ (rows.map (fun r => r.train_balanced_accuracy))
    train_accuracy := npMeanQ (rows.map (fun r => r.train_accuracy))
    train_sensitivity := npMeanQ (rows.map (fun r => r.train_sensitivity))
    train_specificity := npMeanQ (rows.map (fun r => r.train_specificity))
    train_ppv := npMeanQ (rows.map (fun r => r.train_ppv))
    train_npv := npMeanQ (rows.map (fun r => r.train_npv)) }

/-- `RepeatedHoldOut.save_results` with the file writes abstracted away:
after the `is None` guard, the per-iteration train/test subject tables and
the single-row results tables are built, each collection is concatenated
with `pd.concat`, the column means are taken, and finally
`compute_error_variance` and `compute_accuracy_variance` run to fill the
`variance.tsv` row `(bal_acc resampled, bal_acc corrected, error resampled,
error corrected)`. -/
def RepeatedHoldOut.save_results (ep : List ℤ → List ℤ → Metrics)
    (st : RepeatedHoldOutState) :
    Except String (List (ℕ × ℤ × ℤ × ℕ) × List (ℕ × ℤ × ℤ × ℕ) ×
      List RHOResultsRow × RHOResultsRow ×
      (Option ℚ × Option ℚ × Option ℚ × Option ℚ)) :=
  match st.split_results with
  | none => .error
      "No results to save. Method validate() must be run before save_results()."
  | some srs => do
    let train_tables := srs.enum.map (fun p => trainSubjectsTable p.1 p.2)
    let test_tables := srs.enum.map (fun p => testSubjectsTable p.1 p.2)
    let results_tables := srs.map (fun r => [rhoResultsRow r])
    let all_train ← pdConcat train_tables
    let all_test ← pdConcat test_tables
    let all_results ← pdConcat results_tables
    let mean_row := rhoMeanRow all_results
    let ev ← RepeatedHoldOut.compute_error_variance st
    let av ← RepeatedHoldOut.compute_accuracy_variance ep st
    pure (all_train, all_test, all_results, mean_row,
      (av.1, av.2, ev.1, ev.2))

/-- Concrete metrics record used as a fixture in witnesses. -/
def fixtureMetrics : Metrics :=
  { balanced_accuracy := 0, accuracy := 0, sensitivity := 0, specificity := 0,
    ppv := 0, npv := 0 }

/-- Concrete outer-fold result used as a fixture in witnesses. -/
def fixtureResult (c : ℝ) (ba : ℚ) (y yhat : List ℤ) : EvalResult :=
  { best_parameter := { c := c, balanced_accuracy := ba },
    evaluation := fixtureMetrics, evaluation_train := fixtureMetrics,
    y_hat := yhat, y_hat_train := [], y := y, y_train := [],
    y_index := [], x_index := [], auc := 0 }

theorem logb_ten_ten : Real.logb 10 10 = 1 :=
  Real.logb_self_eq_one (by norm_num)

theorem logb_ten_hundred : Real.logb 10 100 = 2 := by
  rw [show (100 : ℝ) = 10 ^ (2 : ℕ) by norm_num, Real.logb_pow, logb_ten_ten]
  norm_num

theorem logb_ten_thousand : Real.logb 10 1000 = 3 := by
  rw [show (1000 : ℝ) = 10 ^ (3 : ℕ) by norm_num, Real.logb_pow, logb_ten_ten]
  norm_num

theorem rpow_two_of_ten : (10 : ℝ) ^ (2 : ℝ) = 100 := by
  rw [show (2 : ℝ) = ((2 : ℕ) : ℝ) by norm_num, Real.rpow_natCast]
  norm_num

/-- C1: for every non-empty list of outer fold results, both
`apply_best_parameters` variants return final parameters whose C is 10
raised to the arithmetic mean of the log10 of each fold selected C, whose
balanced accuracy is the arithmetic mean of the per-fold best balanced
accuracies, and a classifier refit once on the entire stored kernel
(respectively feature) matrix and label vector with that aggregated C. -/
theorem apply_best_parameters_spec (kalg : KernelSVMAlg) (falg : FeatureSVMAlg)
    (results : List EvalResult) (h : results ≠ []) :
    kalg.apply_best_parameters results =
      ({ balanced := kalg.balanced,
         C := (10 : ℝ) ^
           ((results.map (fun r => Real.logb 10 r.best_parameter.c)).sum /
             results.length),
         fit_data := kalg.kernel, fit_labels := kalg.y },
       { c := (10 : ℝ) ^
           ((results.map (fun r => Real.logb 10 r.best_parameter.c)).sum /
             results.length),
         balanced_accuracy :=
           (results.map (fun r => r.best_parameter.balanced_accuracy)).sum /
             results.length })
    ∧ falg.apply_best_parameters results =
      ({ balanced := falg.balanced,
         C := (10 : ℝ) ^
           ((results.map (fun r => Real.logb 10 r.best_parameter.c)).sum /
             results.length),
         fit_data := falg.x, fit_labels := falg.y },
       { c := (10 : ℝ) ^
           ((results.map (fun r => Real.logb 10 r.best_parameter.c)).sum /
             results.length),
         balanced_accuracy :=
           (results.map (fun r => r.best_parameter.balanced_accuracy)).sum /
             results.length }) := by
  unfold KernelSVMAlg.apply_best_parameters FeatureSVMAlg.apply_best_parameters
  constructor <;> simp [npMeanR, npMeanQ, List.map_map, Function.comp_def]

/-- Witness for C1 at the spec example: selected Cs 10, 100, 1000 aggregate
to the final C 100; the balanced accuracies 1/2, 3/4, 1/4 average to 1/2;
the classifier is fit on the full stored kernel and labels. -/
theorem apply_best_parameters_spec_witness :
    (KernelSVMAlg.apply_best_parameters
        { kernel := [[1]], y := [0], balanced := true, grid_search_folds := 10,
          c_range := [] }
        [fixtureResult 10 (1/2) [] [], fixtureResult 100 (3/4) [] [],
         fixtureResult 1000 (1/4) [] []]).2.c = 100
    ∧ (KernelSVMAlg.apply_best_parameters
        { kernel := [[1]], y := [0], balanced := true, grid_search_folds := 10,
          c_range := [] }
        [fixtureResult 10 (1/2) [] [], fixtureResult 100 (3/4) [] [],
         fixtureResult 1000 (1/4) [] []]).2.balanced_accuracy = 1/2
    ∧ (KernelSVMAlg.apply_best_parameters
        { kernel := [[1]], y := [0], balanced := true, grid_search_folds := 10,
          c_range := [] }
        [fixtureResult 10 (1/2) [] [], fixtureResult 100 (3/4) [] [],
         fixtureResult 1000 (1/4) [] []]).1.fit_data = [[1]] := by
  have h := (apply_best_parameters_spec
    { kernel := [[1]], y := [0], balanced := true, grid_search_folds := 10,
      c_range := [] }
    { x := [[1]], y := [0], balanced := true, grid_search_folds := 10,
      c_range := [] }
    [fixtureResult 10 (1/2) [] [], fixtureResult 100 (3/4) [] [],
     fixtureResult 1000 (1/4) [] []] (by simp)).1
  rw [h]
  refine ⟨?_, by norm_num [fixtureResult], rfl⟩
  simp only [fixtureResult, List.map_cons, List.map_nil, List.sum_cons,
    List.sum_nil, List.length_cons, List.length_nil]
  rw [logb_ten_ten, logb_ten_hundred, logb_ten_thousand]
  rw [show ((1 : ℝ) + (2 + (3 + 0))) / (((0 : ℕ) + 1 + 1 + 1 : ℕ) : ℝ) = 2 by
    norm_num]
  exact rpow_two_of_ten

/-- C4: `_select_best_parameter` returns the record whose c is 10 raised to
the arithmetic mean of the log10 of each inner fold winning C (the winner
being the strict-improvement loop `foldBest`), and whose balanced accuracy
is the arithmetic mean of the winning accuracies. -/
theorem select_best_parameter_spec (table : List (List (ℝ × ℚ)))
    (h : table ≠ []) :
    selectBestParameter table =
      { c := (10 : ℝ) ^
          ((table.map (fun fold => Real.logb 10 (foldBest fold).1)).sum /
            table.length),
        balanced_accuracy :=
          (table.map (fun fold => (foldBest fold).2)).sum / table.length } := by
  unfold selectBestParameter
  simp [npMeanR, npMeanQ, List.map_map, Function.comp_def]

/-- Witness for C4: two inner folds with winners (10, 1/2) and (1000, 1/4)
aggregate to C = 100 and balanced accuracy 3/8. -/
theorem select_best_parameter_spec_witness :
    (selectBestParameter [[((10 : ℝ), (1 : ℚ)/2)], [((1000 : ℝ), (1 : ℚ)/4)]]).c = 100
    ∧ (selectBestParameter
        [[((10 : ℝ), (1 : ℚ)/2)], [((1000 : ℝ), (1 : ℚ)/4)]]).balanced_accuracy
        = 3/8 := by
  have h := select_best_parameter_spec
    [[((10 : ℝ), (1 : ℚ)/2)], [((1000 : ℝ), (1 : ℚ)/4)]] (by simp)
  rw [h]
  have hb1 : foldBest [((10 : ℝ), (1 : ℚ)/2)] = ((10 : ℝ), (1 : ℚ)/2) := by
    simp [foldBest]
    norm_num
  have hb2 : foldBest [((1000 : ℝ), (1 : ℚ)/4)] = ((1000 : ℝ), (1 : ℚ)/4) := by
    simp [foldBest]
    norm_num
  constructor
  · simp only [List.map_cons, List.map_nil, List.sum_cons, List.sum_nil,
      List.length_cons, List.length_nil, hb1, hb2]
    rw [logb_ten_ten, logb_ten_thousand]
    rw [show ((1 : ℝ) + (3 + 0)) / (((0 : ℕ) + 1 + 1 : ℕ) : ℝ) = 2 by norm_num]
    exact rpow_two_of_ten
  · simp only [List.map_cons, List.map_nil, List.sum_cons, List.sum_nil,
      List.length_cons, List.length_nil, hb1, hb2]
    norm_num

/-- C7: calling `save_results` on a freshly constructed validation strategy,
before `validate` has run, raises an error for both strategies: the stored
results list is empty, so `pd.concat` on the empty collection of per-fold
tables raises (the `is None` guard itself cannot fire, since `__init__`
stores an empty list, not `None`). -/
theorem save_results_before_validate_raises :
    (∀ (n : ℕ) (t : ℚ) (ep : List ℤ → List ℤ → Metrics),
      RepeatedHoldOut.save_results ep (RepeatedHoldOut.init n t) =
        .error "No objects to concatenate")
    ∧ KFoldCV.save_results KFoldCV.init = .error "No objects to concatenate" := by
  exact ⟨fun n t ep => rfl, rfl⟩

/-- Characterization of the strict-improvement running best: starting from
any running pair `b`, the fold either keeps `b` (when no accuracy strictly
exceeds it) or lands on an element that strictly beats `b` and every earlier
element, and weakly dominates the whole fold. -/
theorem foldl_best_spec (t : List (ℝ × ℚ)) (b : ℝ × ℚ) :
    (t.foldl (fun best p => if best.2 < p.2 then p else best) b = b
      ∧ ∀ q ∈ t, q.2 ≤ b.2)
    ∨ ∃ i : Fin t.length,
        t.foldl (fun best p => if best.2 < p.2 then p else best) b = t.get i
        ∧ b.2 < (t.get i).2
        ∧ (∀ q ∈ t, q.2 ≤ (t.get i).2)
        ∧ ∀ j : Fin t.length, (j : ℕ) < (i : ℕ) → (t.get j).2 < (t.get i).2 := by
  induction t generalizing b with
  | nil => exact Or.inl ⟨rfl, by simp⟩
  | cons a t ih =>
    by_cases hab : b.2 < a.2
    · have hstep : (a :: t).foldl (fun best p => if best.2 < p.2 then p else best) b
        = t.foldl (fun best p => if best.2 < p.2 then p else best) a := by
        simp [hab]
      rcases ih a with ⟨heq, hall⟩ | ⟨i, heq, hlt, hall, hfirst⟩
      · refine Or.inr ⟨⟨0, by simp⟩, ?_, ?_, ?_, ?_⟩
        · rw [hstep, heq]; rfl
        · exact hab
        · intro q hq
          rcases List.mem_cons.mp hq with rfl | hq
          · exact le_refl _
          · exact hall q hq
        · intro j hj
          simp at hj
      · refine Or.inr ⟨⟨i + 1, by simpa using i.isLt⟩, ?_, ?_, ?_, ?_⟩
        · rw [hstep, heq]; rfl
        · exact lt_trans hab hlt
        · intro q hq
          rcases List.mem_cons.mp hq with rfl | hq
          · exact le_of_lt hlt
          · exact hall q hq
        · intro j hj
          rcases j with ⟨jv, hjv⟩
          match jv, hjv with
          | 0, h0 => exact hlt
          | jv + 1, hjv =>
            exact hfirst ⟨jv, by simpa using hjv⟩ (by simpa using hj)
    · push_neg at hab
      have hstep : (a :: t).foldl (fun best p => if best.2 < p.2 then p else best) b
        = t.foldl (fun best p => if best.2 < p.2 then p else best) b := by
        simp [not_lt.mpr hab]
      rcases ih b with ⟨heq, hall⟩ | ⟨i, heq, hlt, hall, hfirst⟩
      · refine Or.inl ⟨by rw [hstep, heq], ?_⟩
        intro q hq
        rcases List.mem_cons.mp hq with rfl | hq
        · exact hab
        · exact hall q hq
      · refine Or.inr ⟨⟨i + 1, by simpa using i.isLt⟩, ?_, ?_, ?_, ?_⟩
        · rw [hstep, heq]; rfl
        · exact hlt
        · intro q hq
          rcases List.mem_cons.mp hq with rfl | hq
          · exact le_trans hab (le_of_lt hlt)
          · exact hall q hq
        · intro j hj
          rcases j with ⟨jv, hjv⟩
          match jv, hjv with
          | 0, h0 => exact lt_of_le_of_lt hab hlt
          | jv + 1, hjv =>
            exact hfirst ⟨jv, by simpa using hjv⟩ (by simpa using hj)

/-- C5: within one inner fold, the winner loop replaces the running best
only on a strict accuracy improvement (step law on the last evaluated
candidate), so for any fold of candidates with accuracies above the -1
sentinel the winner is the first candidate attaining the strictly highest
accuracy: it dominates every candidate weakly and every earlier candidate
strictly, hence the first of two equal-accuracy candidates is retained. -/
theorem fold_winner_first_strict_max :
    (∀ (l : List (ℝ × ℚ)) (p : ℝ × ℚ),
        foldBest (l ++ [p]) = if (foldBest l).2 < p.2 then p else foldBest l)
    ∧ ∀ (l : List (ℝ × ℚ)), l ≠ [] → (∀ q ∈ l, (-1 : ℚ) < q.2) →
        ∃ i : Fin l.length,
          l.get i = foldBest l
          ∧ (∀ q ∈ l, q.2 ≤ (foldBest l).2)
          ∧ ∀ j : Fin l.length, (j : ℕ) < (i : ℕ) →
              (l.get j).2 < (foldBest l).2 := by
  constructor
  · intro l p
    unfold foldBest
    rw [List.foldl_append]
    rfl
  · intro l hne hpos
    match l, hne with
    | a :: t, _ =>
      have ha : (-1 : ℚ) < a.2 := hpos a (List.mem_cons_self a t)
      have hstart : foldBest (a :: t)
          = t.foldl (fun best p => if best.2 < p.2 then p else best) a := by
        unfold foldBest
        simp [ha]
      rcases foldl_best_spec t a with ⟨heq, hall⟩ | ⟨i, heq, hlt, hall, hfirst⟩
      · refine ⟨⟨0, by simp⟩, ?_, ?_, ?_⟩
        · rw [hstart, heq]; rfl
        · intro q hq
          rw [hstart, heq]
          rcases List.mem_cons.mp hq with rfl | hq
          · exact le_refl _
          · exact hall q hq
        · intro j hj
          simp at hj
      · refine ⟨⟨i + 1, by simpa using i.isLt⟩, ?_, ?_, ?_⟩
        · rw [hstart, heq]; rfl
        · intro q hq
          rw [hstart, heq]
          rcases List.mem_cons.mp hq with rfl | hq
          · exact le_of_lt hlt
          · exact hall q hq
        · intro j hj
          rw [hstart, heq]
          rcases j with ⟨jv, hjv⟩
          match jv, hjv with
          | 0, h0 => exact hlt
          | jv + 1, hjv =>
            exact hfirst ⟨jv, by simpa using hjv⟩ (by simpa using hj)

/-- Witness for C5 on a concrete tie: two candidates with equal accuracy
1/2; the computed winner is the first, and the theorem instantiates. -/
theorem fold_winner_first_strict_max_witness :
    foldBest [((1 : ℝ), (1 : ℚ)/2), ((2 : ℝ), (1 : ℚ)/2)] = ((1 : ℝ), (1 : ℚ)/2)
    ∧ ∃ i : Fin ([((1 : ℝ), (1 : ℚ)/2), ((2 : ℝ), (1 : ℚ)/2)]).length,
        ([((1 : ℝ), (1 : ℚ)/2), ((2 : ℝ), (1 : ℚ)/2)]).get i
          = foldBest [((1 : ℝ), (1 : ℚ)/2), ((2 : ℝ), (1 : ℚ)/2)]
        ∧ (∀ q ∈ [((1 : ℝ), (1 : ℚ)/2), ((2 : ℝ), (1 : ℚ)/2)],
            q.2 ≤ (foldBest [((1 : ℝ), (1 : ℚ)/2), ((2 : ℝ), (1 : ℚ)/2)]).2)
        ∧ ∀ j : Fin ([((1 : ℝ), (1 : ℚ)/2), ((2 : ℝ), (1 : ℚ)/2)]).length,
            (j : ℕ) < (i : ℕ) →
            (([((1 : ℝ), (1 : ℚ)/2), ((2 : ℝ), (1 : ℚ)/2)]).get j).2
              < (foldBest [((1 : ℝ), (1 : ℚ)/2), ((2 : ℝ), (1 : ℚ)/2)]).2 := by
  constructor
  · simp [foldBest]
    norm_num
  · exact fold_winner_first_strict_max.2 _ (by simp)
      (by
        intro q hq
        rcases List.mem_cons.mp hq with rfl | hq
        · norm_num
        · rcases List.mem_cons.mp hq with rfl | hq
          · norm_num
          · simp at hq)

/-- C3: hyperparameter selection inside `evaluate` reads only the
kernel/feature entries and labels at the outer-training indices. Two runs
over data that agree on all `train_index` rows and columns (kernel variant)
or all `train_index` rows (feature variant) and on the labels at
`train_index`, with the same inner fold assignment and candidate grid,
produce the same `best_parameter` record, whatever the data at the
outer-test positions. -/
theorem evaluate_selection_noninterference :
    (∀ (gs : List (List ℚ) → List (List ℚ) → List ℤ → List ℤ → ℝ → ℚ)
       (launch : List (List ℚ) → List (List ℚ) → List ℤ → List ℤ → ℝ →
         List ℤ × ℚ × List ℤ)
       (ep : List ℤ → List ℤ → Metrics)
       (K1 K2 : List (List ℚ)) (y1 y2 : List ℤ) (bal : Bool) (gsf : ℕ)
       (cr : List ℝ) (icv : List (List ℕ × List ℕ)) (tr te : List ℕ),
      (∀ i ∈ tr, ∀ j ∈ tr, kentry K1 i j = kentry K2 i j) →
      (∀ i ∈ tr, y1.getD i 0 = y2.getD i 0) →
      (KernelSVMAlg.evaluate
          { kernel := K1, y := y1, balanced := bal, grid_search_folds := gsf,
            c_range := cr } gs launch ep icv tr te).best_parameter =
        (KernelSVMAlg.evaluate
          { kernel := K2, y := y2, balanced := bal, grid_search_folds := gsf,
            c_range := cr } gs launch ep icv tr te).best_parameter)
    ∧ ∀ (gs : List (List ℚ) → List (List ℚ) → List ℤ → List ℤ → ℝ → ℚ)
       (launch : List (List ℚ) → List (List ℚ) → List ℤ → List ℤ → ℝ →
         List ℤ × ℚ × List ℤ)
       (ep : List ℤ → List ℤ → Metrics)
       (X1 X2 : List (List ℚ)) (y1 y2 : List ℤ) (bal : Bool) (gsf : ℕ)
       (cr : List ℝ) (icv : List (List ℕ × List ℕ)) (tr te : List ℕ),
      (∀ i ∈ tr, X1.getD i [] = X2.getD i []) →
      (∀ i ∈ tr, y1.getD i 0 = y2.getD i 0) →
      (FeatureSVMAlg.evaluate
          { x := X1, y := y1, balanced := bal, grid_search_folds := gsf,
            c_range := cr } gs launch ep icv tr te).best_parameter =
        (FeatureSVMAlg.evaluate
          { x := X2, y := y2, balanced := bal, grid_search_folds := gsf,
            c_range := cr } gs launch ep icv tr te).best_parameter := by
  constructor
  · intro gs launch ep K1 K2 y1 y2 bal gsf cr icv tr te hK hy
    have hok : sliceRC K1 tr tr = sliceRC K2 tr tr := by
      unfold sliceRC
      refine List.map_congr_left (fun r hr => ?_)
      exact List.map_congr_left (fun c hc => hK r hr c hc)
    have hytr : sliceList y1 tr = sliceList y2 tr := by
      unfold sliceList
      exact List.map_congr_left (fun i hi => hy i hi)
    simp only [KernelSVMAlg.evaluate]
    rw [hok, hytr]
  · intro gs launch ep X1 X2 y1 y2 bal gsf cr icv tr te hX hy
    have hox : sliceRows X1 tr = sliceRows X2 tr := by
      unfold sliceRows
      exact List.map_congr_left (fun r hr => hX r hr)
    have hytr : sliceList y1 tr = sliceList y2 tr := by
      unfold sliceList
      exact List.map_congr_left (fun i hi => hy i hi)
    simp only [FeatureSVMAlg.evaluate]
    rw [hox, hytr]

/-- Witness for C3: kernels and labels that differ only at the outer-test
index 2 while agreeing on the training block over indices 0 and 1 give the
same selected best parameter. -/
theorem evaluate_selection_noninterference_witness :
    (KernelSVMAlg.evaluate
        { kernel := [[1, 2, 3], [2, 5, 6], [3, 6, 9]], y := [0, 1, 0],
          balanced := true, grid_search_folds := 1, c_range := [(1 : ℝ)] }
        (fun _ _ _ _ _ => 0) (fun _ _ _ _ _ => ([], 0, []))
        (fun _ _ => fixtureMetrics) [([0], [1])] [0, 1] [2]).best_parameter =
      (KernelSVMAlg.evaluate
        { kernel := [[1, 2, 7], [2, 5, 8], [7, 8, 4]], y := [0, 1, 1],
          balanced := true, grid_search_folds := 1, c_range := [(1 : ℝ)] }
        (fun _ _ _ _ _ => 0) (fun _ _ _ _ _ => ([], 0, []))
        (fun _ _ => fixtureMetrics) [([0], [1])] [0, 1] [2]).best_parameter := by
  refine evaluate_selection_noninterference.1
    (fun _ _ _ _ _ => 0) (fun _ _ _ _ _ => ([], 0, []))
    (fun _ _ => fixtureMetrics) _ _ _ _ true 1 [(1 : ℝ)] [([0], [1])]
    [0, 1] [2] ?_ ?_
  · decide
  · decide

/-- The fold-dispatch loop of `validate`: when the first `n` indices are in
range, it returns the evaluations of the first `n` splits in order. -/
theorem mapM_pyIndex_take {σ β : Type} (cv : List σ) (f : σ → β) :
    ∀ n : ℕ, n ≤ cv.length →
    ((List.range n).mapM (fun i => do
        let s ← pyIndex cv i
        pure (f s)) : Except String (List β)) = .ok ((cv.take n).map f) := by
  intro n
  induction n with
  | zero => intro _; rfl
  | succ n ih =>
    intro hn
    have hlt : n < cv.length := Nat.lt_of_succ_le hn
    have hidx : pyIndex cv n = .ok (cv.get ⟨n, hlt⟩) := dif_pos hlt
    have hsingle : (([n] : List ℕ).mapM (fun i => do
        let s ← pyIndex cv i
        pure (f s)) : Except String (List β)) = .ok [f (cv.get ⟨n, hlt⟩)] := by
      rw [List.mapM_cons, List.mapM_nil, hidx]
      rfl
    rw [List.range_succ, List.mapM_append, ih (Nat.le_of_lt hlt), hsingle]
    have htake : (cv.take (n + 1)).map f
        = (cv.take n).map f ++ [f (cv.get ⟨n, hlt⟩)] := by
      rw [List.take_succ, List.map_append, List.getElem?_eq_getElem hlt]
      simp [List.get_eq_getElem]
    rw [htake]
    rfl

/-- C10: `validate` appends each run of fold results to the stored list
instead of resetting it. For both strategies, a first run on a fresh-or-used
state stores the old list extended by the new evaluations; a second run on
the resulting state yields the concatenation of both runs, stores it, and
hands that combined list to `apply_best_parameters`, so aggregation (and
any later `save_results` or variance estimation, which read the same stored
field) covers both runs. -/
theorem validate_accumulates_across_runs :
    (∀ (eval : List ℕ × List ℕ → EvalResult)
       (abp : List EvalResult → FittedSVC × BestParam)
       (st : KFoldCVState) (y1 y2 : List ℤ)
       (cv1 cv2 : List (List ℕ × List ℕ))
       (gen1 gen2 : List ℤ → List (List ℕ × List ℕ)) (n1 n2 : ℕ),
      n1 ≤ cv1.length → n2 ≤ cv2.length →
      ∃ r1 st1 r2 st2,
        KFoldCV.validate eval abp st y1 n1 (some cv1) gen1 =
          .ok ((abp r1).1, (abp r1).2, r1, st1)
        ∧ r1 = st.fold_results.getD [] ++ (cv1.take n1).map eval
        ∧ st1.fold_results = some r1
        ∧ KFoldCV.validate eval abp st1 y2 n2 (some cv2) gen2 =
            .ok ((abp r2).1, (abp r2).2, r2, st2)
        ∧ r2 = r1 ++ (cv2.take n2).map eval
        ∧ st2.fold_results = some r2)
    ∧ ∀ (eval : List ℕ × List ℕ → EvalResult)
       (abp : List EvalResult → FittedSVC × BestParam)
       (st : RepeatedHoldOutState) (y1 y2 : List ℤ)
       (cv1 cv2 : List (List ℕ × List ℕ))
       (gen1 gen2 : List ℤ → List (List ℕ × List ℕ)),
      st.n_iterations ≤ cv1.length → st.n_iterations ≤ cv2.length →
      ∃ r1 st1 r2 st2,
        RepeatedHoldOut.validate eval abp st y1 (some cv1) gen1 true =
          .ok ((abp r1).1, (abp r1).2, r1, st1)
        ∧ r1 = st.split_results.getD [] ++ (cv1.take st.n_iterations).map eval
        ∧ st1.split_results = some r1
        ∧ RepeatedHoldOut.validate eval abp st1 y2 (some cv2) gen2 true =
            .ok ((abp r2).1, (abp r2).2, r2, st2)
        ∧ r2 = r1 ++ (cv2.take st.n_iterations).map eval
        ∧ st2.split_results = some r2 := by
  have kfold_run : ∀ (eval : List ℕ × List ℕ → EvalResult)
      (abp : List EvalResult → FittedSVC × BestParam)
      (st : KFoldCVState) (y : List ℤ) (cv : List (List ℕ × List ℕ))
      (gen : List ℤ → List (List ℕ × List ℕ)) (n : ℕ), n ≤ cv.length →
      KFoldCV.validate eval abp st y n (some cv) gen =
        .ok ((abp (st.fold_results.getD [] ++ (cv.take n).map eval)).1,
          (abp (st.fold_results.getD [] ++ (cv.take n).map eval)).2,
          st.fold_results.getD [] ++ (cv.take n).map eval,
          { fold_results := some (st.fold_results.getD [] ++ (cv.take n).map eval),
            classifier := some (abp (st.fold_results.getD [] ++ (cv.take n).map eval)).1,
            best_params := some (abp (st.fold_results.getD [] ++ (cv.take n).map eval)).2,
            cv := some cv }) := by
    intro eval abp st y cv gen n hn
    simp only [KFoldCV.validate, Option.getD_some]
    rw [mapM_pyIndex_take cv eval n hn]
    rfl
  have rho_run : ∀ (eval : List ℕ × List ℕ → EvalResult)
      (abp : List EvalResult → FittedSVC × BestParam)
      (st : RepeatedHoldOutState) (y : List ℤ) (cv : List (List ℕ × List ℕ))
      (gen : List ℤ → List (List ℕ × List ℕ)), st.n_iterations ≤ cv.length →
      RepeatedHoldOut.validate eval abp st y (some cv) gen true =
        .ok ((abp (st.split_results.getD [] ++ (cv.take st.n_iterations).map eval)).1,
          (abp (st.split_results.getD [] ++ (cv.take st.n_iterations).map eval)).2,
          st.split_results.getD [] ++ (cv.take st.n_iterations).map eval,
          { split_results := some (st.split_results.getD []
              ++ (cv.take st.n_iterations).map eval),
            cv := some cv, n_iterations := st.n_iterations,
            test_size := st.test_size }) := by
    intro eval abp st y cv gen hn
    simp only [RepeatedHoldOut.validate, Option.getD_some, if_true]
    rw [mapM_pyIndex_take cv eval st.n_iterations hn]
    rfl
  constructor
  · intro eval abp st y1 y2 cv1 cv2 gen1 gen2 n1 n2 h1 h2
    refine ⟨st.fold_results.getD [] ++ (cv1.take n1).map eval,
      { fold_results := some (st.fold_results.getD [] ++ (cv1.take n1).map eval),
        classifier :=
          some (abp (st.fold_results.getD [] ++ (cv1.take n1).map eval)).1,
        best_params :=
          some (abp (st.fold_results.getD [] ++ (cv1.take n1).map eval)).2,
        cv := some cv1 },
      (st.fold_results.getD [] ++ (cv1.take n1).map eval)
        ++ (cv2.take n2).map eval,
      { fold_results := some ((st.fold_results.getD []
            ++ (cv1.take n1).map eval) ++ (cv2.take n2).map eval),
        classifier := some (abp ((st.fold_results.getD []
            ++ (cv1.take n1).map eval) ++ (cv2.take n2).map eval)).1,
        best_params := some (abp ((st.fold_results.getD []
            ++ (cv1.take n1).map eval) ++ (cv2.take n2).map eval)).2,
        cv := some cv2 },
      kfold_run eval abp st y1 cv1 gen1 n1 h1, rfl, rfl, ?_, rfl, rfl⟩
    exact kfold_run eval abp _ y2 cv2 gen2 n2 h2
  · intro eval abp st y1 y2 cv1 cv2 gen1 gen2 h1 h2
    refine ⟨st.split_results.getD [] ++ (cv1.take st.n_iterations).map eval,
      { split_results := some (st.split_results.getD []
            ++ (cv1.take st.n_iterations).map eval),
        cv := some cv1, n_iterations := st.n_iterations,
        test_size := st.test_size },
      (st.split_results.getD [] ++ (cv1.take st.n_iterations).map eval)
        ++ (cv2.take st.n_iterations).map eval,
      { split_results := some ((st.split_results.getD []
            ++ (cv1.take st.n_iterations).map eval)
            ++ (cv2.take st.n_iterations).map eval),
        cv := some cv2, n_iterations := st.n_iterations,
        test_size := st.test_size },
      rho_run eval abp st y1 cv1 gen1 h1, rfl, rfl, ?_, rfl, rfl⟩
    exact rho_run eval abp _ y2 cv2 gen2 h2

/-- Witness for C10: a fresh `KFoldCV` run twice over concrete one-fold
split lists accumulates the results of both runs. -/
theorem validate_accumulates_across_runs_witness :
    ∃ r1 st1 r2 st2,
      KFoldCV.validate (fun _ => fixtureResult 1 0 [0] [0])
          (fun _ =>
            ({ balanced := true, C := 1, fit_data := [], fit_labels := [] },
             { c := 1, balanced_accuracy := 0 }))
          KFoldCV.init [0, 1] 1 (some [([0], [1])]) (fun _ => []) =
        .ok ({ balanced := true, C := 1, fit_data := [], fit_labels := [] },
             { c := 1, balanced_accuracy := 0 }, r1, st1)
      ∧ r1 = KFoldCV.init.fold_results.getD []
          ++ (([([0], [1])] : List (List ℕ × List ℕ)).take 1).map
            (fun _ => fixtureResult 1 0 [0] [0])
      ∧ st1.fold_results = some r1
      ∧ KFoldCV.validate (fun _ => fixtureResult 1 0 [0] [0])
          (fun _ =>
            ({ balanced := true, C := 1, fit_data := [], fit_labels := [] },
             { c := 1, balanced_accuracy := 0 }))
          st1 [0, 1] 1 (some [([2], [3])]) (fun _ => []) =
        .ok ({ balanced := true, C := 1, fit_data := [], fit_labels := [] },
             { c := 1, balanced_accuracy := 0 }, r2, st2)
      ∧ r2 = r1 ++ (([([2], [3])] : List (List ℕ × List ℕ)).take 1).map
          (fun _ => fixtureResult 1 0 [0] [0])
      ∧ st2.fold_results = some r2 :=
  validate_accumulates_across_runs.1 (fun _ => fixtureResult 1 0 [0] [0])
    (fun _ =>
      ({ balanced := true, C := 1, fit_data := [], fit_labels := [] },
       { c := 1, balanced_accuracy := 0 }))
    KFoldCV.init [0, 1] [0, 1] [([0], [1])] [([2], [3])] (fun _ => [])
    (fun _ => []) 1 1 (by decide) (by decide)

/-- C8: requesting non-nested repeated holdout (`inner_cv` false) raises
`Exception("We always do nested CV")` on the first iteration, before any
result is produced, for any positive iteration count and any nonempty split
list (supplied or generated). -/
theorem nonnested_validation_raises
    (eval : List ℕ × List ℕ → EvalResult)
    (abp : List EvalResult → FittedSVC × BestParam)
    (st : RepeatedHoldOutState) (y : List ℤ)
    (splits_indices : Option (List (List ℕ × List ℕ)))
    (gen : List ℤ → List (List ℕ × List ℕ))
    (h1 : 1 ≤ st.n_iterations)
    (h2 : 0 < (splits_indices.getD (gen y)).length) :
    RepeatedHoldOut.validate eval abp st y splits_indices gen false =
      .error "We always do nested CV" := by
  obtain ⟨m, hm⟩ : ∃ m, st.n_iterations = m + 1 :=
    ⟨st.n_iterations - 1, by omega⟩
  have hidx : pyIndex (splits_indices.getD (gen y)) 0 =
      .ok ((splits_indices.getD (gen y)).get ⟨0, h2⟩) := dif_pos h2
  simp only [RepeatedHoldOut.validate]
  rw [hm, List.range_succ_eq_map, List.mapM_cons, hidx]
  rfl

/-- Witness for C8: a fresh `RepeatedHoldOut` over 100 iterations with one
supplied split raises immediately when `inner_cv` is false. -/
theorem nonnested_validation_raises_witness :
    RepeatedHoldOut.validate (fun _ => fixtureResult 1 0 [0] [0])
        (fun _ =>
          ({ balanced := true, C := 1, fit_data := [], fit_labels := [] },
           { c := 1, balanced_accuracy := 0 }))
        (RepeatedHoldOut.init 100 (1/5)) [0, 1] (some [([0], [1])])
        (fun _ => []) false =
      .error "We always do nested CV" :=
  nonnested_validation_raises _ _ (RepeatedHoldOut.init 100 (1/5)) [0, 1]
    (some [([0], [1])]) (fun _ => []) (by decide) (by decide)

/-- The per-iteration error statistics all evaluate when every test label
vector is nonempty. -/
theorem mapM_test_error_ok (l : List EvalResult) (h : ∀ r ∈ l, r.y ≠ []) :
    (l.mapM (fun r =>
      RepeatedHoldOut._compute_average_test_error r.y r.y_hat) :
      Except String (List ℚ)) =
    .ok (l.map (fun r =>
      (((r.y.zip r.y_hat).countP (fun q => q.1 != q.2) : ℕ) : ℚ) /
        (r.y.length : ℚ))) := by
  induction l with
  | nil => rfl
  | cons a l ih =>
    have ha : ((a.y.length : ℕ) : ℚ) ≠ 0 := by
      have h0 := h a (List.mem_cons_self a l)
      have : a.y.length ≠ 0 := fun hl => h0 (List.length_eq_zero.mp hl)
      exact_mod_cast this
    have hstat : RepeatedHoldOut._compute_average_test_error a.y a.y_hat =
        .ok ((((a.y.zip a.y_hat).countP (fun q => q.1 != q.2) : ℕ) : ℚ) /
          (a.y.length : ℚ)) := by
      unfold RepeatedHoldOut._compute_average_test_error pyDiv
      rw [if_neg ha]
    rw [List.mapM_cons, hstat, ih (fun r hr => h r (List.mem_cons_of_mem a hr))]
    rfl

/-- C2: `_compute_variance` on J >= 2 statistics with test fraction
0 < p < 1 returns the pair (s2 / J, s2 * (1/J + p/(1-p))) where s2 is the
sample variance with denominator J - 1; `compute_error_variance` and
`compute_accuracy_variance` reduce their per-iteration statistic lists
(mismatch fractions and balanced accuracies) through exactly that
function. -/
theorem compute_variance_formula :
    (∀ (xs : List ℚ) (p : ℚ), 2 ≤ xs.length → 0 < p → p < 1 →
      RepeatedHoldOut._compute_variance xs.length p xs =
        .ok (some (((xs.map (fun x => (x - xs.sum / xs.length) ^ 2)).sum /
              ((xs.length : ℚ) - 1)) / xs.length),
          some (((xs.map (fun x => (x - xs.sum / xs.length) ^ 2)).sum /
              ((xs.length : ℚ) - 1)) * (1 / xs.length + p / (1 - p)))))
    ∧ (∀ st : RepeatedHoldOutState,
        (∀ r ∈ st.split_results.getD [], r.y ≠ []) →
        RepeatedHoldOut.compute_error_variance st =
          RepeatedHoldOut._compute_variance (st.split_results.getD []).length
            st.test_size
            ((st.split_results.getD []).map (fun r =>
              (((r.y.zip r.y_hat).countP (fun q => q.1 != q.2) : ℕ) : ℚ) /
                (r.y.length : ℚ))))
    ∧ ∀ (ep : List ℤ → List ℤ → Metrics) (st : RepeatedHoldOutState),
        RepeatedHoldOut.compute_accuracy_variance ep st =
          RepeatedHoldOut._compute_variance (st.split_results.getD []).length
            st.test_size
            ((st.split_results.getD []).map (fun r =>
              (ep r.y r.y_hat).balanced_accuracy)) := by
  refine ⟨?_, ?_, ?_⟩
  · intro xs p h2 hp0 hp1
    have hcast : (2 : ℚ) ≤ (xs.length : ℚ) := by exact_mod_cast h2
    have hJ : ((xs.length : ℕ) : ℚ) ≠ 0 := by intro h; rw [h] at hcast; norm_num at hcast
    have hJ1 : ((xs.length : ℚ) - 1) ≠ 0 := by
      intro h
      have : ((xs.length : ℚ)) = 1 := by linarith
      rw [this] at hcast; norm_num at hcast
    have hp : (1 - p) ≠ 0 := by
      intro h
      have : p = 1 := by linarith
      exact absurd this (ne_of_lt hp1)
    unfold RepeatedHoldOut._compute_variance npScalarDiv npMeanQ pyDiv
    simp only [hJ, hJ1, hp, if_false, ite_false, reduceIte]
    exact congrArg Except.ok
      (congrArg (Prod.mk _) (congrArg some (mul_comm _ _)))
  · intro st h
    simp only [RepeatedHoldOut.compute_error_variance]
    rw [mapM_test_error_ok _ h]
    rfl
  · intro ep st
    rfl

/-- Witness for C2 at the spec example: error rates 1/10, 2/10, 3/10 with
test fraction 1/5 give resampled-t 1/300 and corrected 7/1200. -/
theorem compute_variance_formula_witness :
    RepeatedHoldOut._compute_variance 3 (1/5) [1/10, 2/10, 3/10] =
      .ok (some (1/300), some (7/1200)) := by
  have h := compute_variance_formula.1 [1/10, 2/10, 3/10] (1/5)
    (by norm_num) (by norm_num) (by norm_num)
  simp only [List.length_cons, List.length_nil] at h
  rw [show (0 + 1 + 1 + 1 : ℕ) = 3 from rfl] at h
  rw [h]
  norm_num

/-- One-iteration reduction: the sample variance divides by zero, numpy
returns nan, and both estimates come back as values (nan, nan) without an
exception as long as the scalar divisions have nonzero divisors. -/
theorem compute_variance_single (t x : ℚ) (ht : 1 - t ≠ 0) :
    RepeatedHoldOut._compute_variance 1 t [x] = .ok (none, none) := by
  unfold RepeatedHoldOut._compute_variance npScalarDiv npMeanQ pyDiv
  norm_num [ht]
  rfl

/-- C6 counterexample: with exactly one stored iteration,
`compute_error_variance` does not raise; it returns the value (nan, nan). -/
theorem variance_single_iteration_no_raise :
    RepeatedHoldOut.compute_error_variance
      { split_results := some [fixtureResult 1 0 [0] [1]], cv := none,
        n_iterations := 1, test_size := 1/5 } = .ok (none, none) := by
  simp only [RepeatedHoldOut.compute_error_variance, Option.getD_some]
  rw [mapM_test_error_ok [fixtureResult 1 0 [0] [1]] (by simp [fixtureResult])]
  exact compute_variance_single (1/5) _ (by norm_num)

/-- C6 amended: variance estimation with exactly one iteration does not
raise an error; the division by zero in the reduction follows numpy
semantics and both the plain and the corrected estimate are returned as
nan values (for any state whose test fraction is not 1 and whose single
result has a nonempty test label vector). -/
theorem variance_single_iteration_returns_nan (st : RepeatedHoldOutState)
    (r : EvalResult) (h1 : st.split_results = some [r]) (h2 : r.y ≠ [])
    (h3 : st.test_size ≠ 1) :
    RepeatedHoldOut.compute_error_variance st = .ok (none, none)
    ∧ ∀ ep, RepeatedHoldOut.compute_accuracy_variance ep st =
        .ok (none, none) := by
  have ht : 1 - st.test_size ≠ 0 := by
    intro h
    exact h3 (by linarith)
  constructor
  · simp only [RepeatedHoldOut.compute_error_variance, h1, Option.getD_some]
    rw [mapM_test_error_ok [r] (by
      intro q hq
      rw [List.mem_singleton.mp hq]
      exact h2)]
    exact compute_variance_single st.test_size _ ht
  · intro ep
    simp only [RepeatedHoldOut.compute_accuracy_variance, h1, Option.getD_some]
    exact compute_variance_single st.test_size _ ht

/-- Witness for the amended C6 on a concrete one-iteration state. -/
theorem variance_single_iteration_returns_nan_witness :
    RepeatedHoldOut.compute_error_variance
      { split_results := some [fixtureResult 1 0 [0] [1]], cv := none,
        n_iterations := 1, test_size := 2/5 } = .ok (none, none)
    ∧ ∀ ep, RepeatedHoldOut.compute_accuracy_variance ep
        { split_results := some [fixtureResult 1 0 [0] [1]], cv := none,
          n_iterations := 1, test_size := 2/5 } = .ok (none, none) :=
  variance_single_iteration_returns_nan _ (fixtureResult 1 0 [0] [1]) rfl
    (by simp [fixtureResult]) (by norm_num)

/-- Counting mismatches over zipped label vectors agrees with counting the
mismatching positions. -/
theorem countP_zip_eq_card (y z : List ℤ) (h : y.length = z.length) :
    (y.zip z).countP (fun q => q.1 != q.2) =
      ((Finset.range y.length).filter
        (fun i => y.getD i 0 ≠ z.getD i 0)).card := by
  induction y generalizing z with
  | nil => simp
  | cons a ys ih =>
    cases z with
    | nil => simp at h
    | cons b zs =>
      have hlen : ys.length = zs.length := by simpa using h
      rw [List.zip_cons_cons, List.countP_cons, ih zs hlen]
      rw [Finset.card_filter, Finset.card_filter]
      rw [List.length_cons, Finset.sum_range_succ']
      simp [List.getD_cons_succ, List.getD_cons_zero, bne_iff_ne]

/-- C9: the per-iteration error statistic equals the number of positions
where the true label differs from the predicted label, divided by the
length of the label vector. -/
theorem average_test_error_spec (y yhat : List ℤ)
    (hlen : y.length = yhat.length) (hne : y ≠ []) :
    RepeatedHoldOut._compute_average_test_error y yhat =
      .ok ((((Finset.range y.length).filter
          (fun i => y.getD i 0 ≠ yhat.getD i 0)).card : ℚ) /
        (y.length : ℚ)) := by
  have hzero : ((y.length : ℕ) : ℚ) ≠ 0 := by
    have : y.length ≠ 0 := fun hl => hne (List.length_eq_zero.mp hl)
    exact_mod_cast this
  unfold RepeatedHoldOut._compute_average_test_error pyDiv
  rw [if_neg hzero, countP_zip_eq_card y yhat hlen]

/-- Witness for C9: labels [0,1,0] against predictions [0,0,1] mismatch at
two of three positions, statistic 2/3. -/
theorem average_test_error_spec_witness :
    RepeatedHoldOut._compute_average_test_error [0, 1, 0] [0, 0, 1] =
      .ok (2/3) := by
  have h := average_test_error_spec [0, 1, 0] [0, 0, 1] rfl (by simp)
  rw [h]
  rw [show (((Finset.range ([0, 1, 0] : List ℤ).length).filter
      (fun i => ([0, 1, 0] : List ℤ).getD i 0 ≠
        ([0, 0, 1] : List ℤ).getD i 0)).card) = 2 from by decide]
  norm_num

end PyHydra
